import Mathlib

/-!
Verification of the personal-tracker dashboard layer and of the merge
pipeline specified for it.

The dashboard components (`src/dashboard/app/...`) are TypeScript/React.
We embed them shallowly:

* A nullable JavaScript value of underlying type `α` (a field that may be
  `undefined` — key omitted from the JSON object — or `null`, or an actual
  value) is `JsVal α`.
* JavaScript numbers are modelled as `ℚ` (exact arithmetic; the dashboard
  only adds, divides and rounds).
* JavaScript truthiness is modelled per type: a number is truthy iff it is
  nonzero, a string iff it is nonempty, a boolean is itself; `undefined`
  and `null` are falsy.
* A React component's output is modelled as a record of the data-dependent
  decisions it renders (which sections appear, which cells show a value and
  which show the "—" dash).
-/

/-- A JavaScript value that may be `undefined` (absent key), `null`, or present. -/
inductive JsVal (α : Type) where
  | undef : JsVal α
  | null : JsVal α
  | val : α → JsVal α
deriving DecidableEq

/-- Truthiness of a nullable JS number: `undefined`/`null`/`0` are falsy. -/
def truthyQ : JsVal ℚ → Bool
  | .val x => decide (x ≠ 0)
  | _ => false

/-- Truthiness of a nullable JS string: `undefined`/`null`/`""` are falsy. -/
def truthyS : JsVal String → Bool
  | .val s => decide (s ≠ "")
  | _ => false

/-- Truthiness of a nullable JS boolean. -/
def truthyB : JsVal Bool → Bool
  | .val b => b
  | _ => false

/-- The JS `??` operator's left operand as an `Option`: `x ?? d` shows `d`
exactly when this is `none` (i.e. only for `undefined`/`null`, not for `0`). -/
def jsToOption {α : Type} : JsVal α → Option α
  | .val a => some a
  | _ => none

/-- The JS `x || d` idiom on numbers: the value if truthy, otherwise `d`. -/
def jsOrQ (x : JsVal ℚ) (d : ℚ) : ℚ :=
  match x with
  | .val v => if v ≠ 0 then v else d
  | _ => d

/-- The JS `x || d` idiom on strings: the string if nonempty, otherwise `d`. -/
def jsOrS (x : JsVal String) (d : String) : String :=
  match x with
  | .val v => if v ≠ "" then v else d
  | _ => d

/-- JS `Math.round`: round half toward positive infinity. -/
def jsRound (x : ℚ) : ℤ := ⌊x + 1/2⌋

/-- The `habits` object of a `DayData` record (`types.ts`).  `workout` is a
string enum or null; `sauna`/`meditation` are booleans in the declared type,
but the JSON may omit them, so they are embedded as nullable too (the
components only ever read them through truthiness). -/
structure Habits where
  workout : JsVal String
  sauna : JsVal Bool
  meditation : JsVal Bool
deriving DecidableEq

/-- The `DayData` record of `types.ts`: one merged day of the snapshot. -/
structure DayData where
  date : String
  habits : Habits
  sleep : JsVal ℚ
  restingHR : JsVal ℚ
  stress : JsVal String
  location : JsVal String
  notes : JsVal String
  timeWithArno : JsVal ℚ
  timeWorking : JsVal ℚ
  timeCoding : JsVal ℚ
  sleepScore : JsVal ℚ
  readinessScore : JsVal ℚ
  activityScore : JsVal ℚ
  steps : JsVal ℚ
  activeCalories : JsVal ℚ
  sleepDeepMin : JsVal ℚ
  sleepRemMin : JsVal ℚ
  weatherHighF : JsVal ℚ
  weatherCondition : JsVal String
  mood : JsVal ℚ
  energy : JsVal ℚ
deriving DecidableEq

/-- A day whose every optional field is `null`; base point for examples. -/
def emptyDay : DayData where
  date := "2025-01-01"
  habits := ⟨.null, .null, .null⟩
  sleep := .null
  restingHR := .null
  stress := .null
  location := .null
  notes := .null
  timeWithArno := .null
  timeWorking := .null
  timeCoding := .null
  sleepScore := .null
  readinessScore := .null
  activityScore := .null
  steps := .null
  activeCalories := .null
  sleepDeepMin := .null
  sleepRemMin := .null
  weatherHighF := .null
  weatherCondition := .null
  mood := .null
  energy := .null

/-- `getDayScore` of `YearHeatmap.tsx` (lines 28–36): a missing day scores 0,
otherwise one point per truthy habit flag, divided by the fixed total 3. -/
def getDayScore (day : Option DayData) : ℚ :=
  match day with
  | none => 0
  | some day =>
    let total : ℚ := 3
    let score : ℚ :=
      (if truthyS day.habits.workout then 1 else 0)
      + (if truthyB day.habits.sauna then 1 else 0)
      + (if truthyB day.habits.meditation then 1 else 0)
    score / total

/-- The number of habit flags among {workout, sauna, meditation} that are
true (truthy), stated independently of `getDayScore` as a count over the
fixed habit set. -/
def habitTrueCount (day : DayData) : ℕ :=
  [truthyS day.habits.workout, truthyB day.habits.sauna,
    truthyB day.habits.meditation].count true

/-- The `stats` record computed by `YearStats.tsx` (lines 9–27), together
with the rendered cells for Avg HR / Avg Readiness (lines 36–37), which show
a dash instead of a rounded value when the average is not positive. -/
structure YearStatsView where
  workouts : ℕ
  saunas : ℕ
  meditations : ℕ
  avgSleep : ℚ
  avgHR : ℚ
  avgReadiness : ℚ
  totalDays : ℕ
  avgHRCell : Option ℤ
  avgReadinessCell : Option ℤ
deriving DecidableEq

/-- `YearStats` of `YearStats.tsx`: counts and averages over
`Object.values(days)`, filters and reductions exactly as in the source. -/
def yearStats (daysList : List DayData) : YearStatsView :=
  let workouts := (daysList.filter (fun d => truthyS d.habits.workout)).length
  let saunas := (daysList.filter (fun d => truthyB d.habits.sauna)).length
  let meditations := (daysList.filter (fun d => truthyB d.habits.meditation)).length
  let sleepDays := daysList.filter (fun d => truthyQ d.sleep)
  let avgSleep : ℚ :=
    if sleepDays.length > 0 then
      (sleepDays.foldl (fun sum d => sum + jsOrQ d.sleep 0) 0) / sleepDays.length
    else 0
  let hrDays := daysList.filter (fun d => truthyQ d.restingHR)
  let avgHR : ℚ :=
    if hrDays.length > 0 then
      (hrDays.foldl (fun sum d => sum + jsOrQ d.restingHR 0) 0) / hrDays.length
    else 0
  let scoreDays := daysList.filter (fun d => truthyQ d.readinessScore)
  let avgReadiness : ℚ :=
    if scoreDays.length > 0 then
      (scoreDays.foldl (fun sum d => sum + jsOrQ d.readinessScore 0) 0) / scoreDays.length
    else 0
  { workouts := workouts
    saunas := saunas
    meditations := meditations
    avgSleep := avgSleep
    avgHR := avgHR
    avgReadiness := avgReadiness
    totalDays := daysList.length
    avgHRCell := if avgHR > 0 then some (jsRound avgHR) else none
    avgReadinessCell := if avgReadiness > 0 then some (jsRound avgReadiness) else none }

/-- The example day of the spec: habits `{workout: null, sauna: true, meditation: true}`. -/
def exampleDayC1 : DayData :=
  { emptyDay with habits := ⟨.null, .val true, .val true⟩ }

/-- What a JSX `{guard && element}` with a nullable numeric guard renders:
the element when the guard is truthy, nothing when the guard is `null` or
`undefined` — but when the guard is the number 0, the `&&` expression
evaluates to 0 and React renders it as a literal "0" text node (the React
zero-leak pitfall), which is observably different from rendering nothing. -/
inductive Gated (α : Type) where
  | hidden : Gated α
  | leakZero : Gated α
  | shown : α → Gated α
deriving DecidableEq

/-- The JSX pattern `{g && element}` for a nullable numeric guard `g`: a
truthy guard shows the element built from the guard's value; `null` and
`undefined` render nothing; the number 0 leaks as a "0" text node. -/
def numGate {α : Type} (g : JsVal ℚ) (content : ℚ → α) : Gated α :=
  match g with
  | .val v => if v ≠ 0 then Gated.shown (content v) else Gated.leakZero
  | _ => Gated.hidden

/-- React's rendering of a falsy numeric JSX guard value: `null` and
`undefined` render nothing, while a falsy number — necessarily 0 — is
rendered as a literal "0" text node. -/
def falsyGuardRender {α : Type} : JsVal ℚ → Gated α
  | .val _ => Gated.leakZero
  | _ => Gated.hidden

/-- The data-dependent output of the `DayDetail` component (`DayDetail.tsx`,
lines 17–106) for a present day: which sections render and which cells show
a value rather than the dash. An `Option` field is `none` when the dash is
shown; the two sections behind numeric `&&` guards are `Gated`, so a guard
value of 0 (rendered by React as a stray "0") is kept distinct from an
absent guard (rendered as nothing). -/
structure DayDetailView where
  locationLine : Option String
  workoutLabel : String
  workoutHighlighted : Bool
  saunaLabel : String
  saunaHighlighted : Bool
  meditationLabel : String
  meditationHighlighted : Bool
  ouraSection : Gated (Option ℚ × Option ℚ × Option ℚ)
  sleepCell : Option ℚ
  restingHRCell : Option ℚ
  stepsCell : Option ℚ
  workCell : Option ℤ
  moodCell : Option ℚ
  energyCell : Option ℚ
  weatherSection : Gated (ℚ × String)
  notesSection : Option String
deriving DecidableEq

/-- The `DayDetail` component's rendering of a non-null day (`DayDetail.tsx`
lines 17–106): truthiness guards (`data.x ? ... : "—"`, `data.x && ...`)
and the `??`-rendered Oura score cells, exactly as in the source. The Oura
section's guard is the `||` chain of the three scores: when all three are
falsy the chain evaluates to `data.activityScore`'s own value (its last
operand), which React renders as nothing if nullish but as a stray "0" if
it is the number 0; the weather section's guard `data.weatherHighF` leaks
the same way. -/
def renderDayDetail (data : DayData) : DayDetailView where
  locationLine := if truthyS data.location then jsToOption data.location else none
  workoutLabel := jsOrS data.habits.workout "Rest"
  workoutHighlighted := truthyS data.habits.workout
  saunaLabel := if truthyB data.habits.sauna then "Yes" else "No"
  saunaHighlighted := truthyB data.habits.sauna
  meditationLabel := if truthyB data.habits.meditation then "Yes" else "No"
  meditationHighlighted := truthyB data.habits.meditation
  ouraSection :=
    if truthyQ data.sleepScore || truthyQ data.readinessScore || truthyQ data.activityScore then
      Gated.shown (jsToOption data.sleepScore, jsToOption data.readinessScore,
        jsToOption data.activityScore)
    else falsyGuardRender data.activityScore
  sleepCell := if truthyQ data.sleep then jsToOption data.sleep else none
  restingHRCell := if truthyQ data.restingHR then jsToOption data.restingHR else none
  stepsCell := if truthyQ data.steps then jsToOption data.steps else none
  workCell :=
    if truthyQ data.timeWorking then (jsToOption data.timeWorking).map (fun v => jsRound (v / 60))
    else none
  moodCell := if truthyQ data.mood then jsToOption data.mood else none
  energyCell := if truthyQ data.energy then jsToOption data.energy else none
  weatherSection := numGate data.weatherHighF (fun v => (v, jsOrS data.weatherCondition "Unknown"))
  notesSection := if truthyS data.notes then jsToOption data.notes else none

/-- Replace `undefined` (omitted key) by `null`, leaving present values alone. -/
def jsNorm {α : Type} : JsVal α → JsVal α
  | .undef => .null
  | x => x

/-- A day with every omitted optional field replaced by an explicit `null`. -/
def undefToNull (d : DayData) : DayData :=
  { d with
    habits := ⟨jsNorm d.habits.workout, jsNorm d.habits.sauna, jsNorm d.habits.meditation⟩
    sleep := jsNorm d.sleep
    restingHR := jsNorm d.restingHR
    stress := jsNorm d.stress
    location := jsNorm d.location
    notes := jsNorm d.notes
    timeWithArno := jsNorm d.timeWithArno
    timeWorking := jsNorm d.timeWorking
    timeCoding := jsNorm d.timeCoding
    sleepScore := jsNorm d.sleepScore
    readinessScore := jsNorm d.readinessScore
    activityScore := jsNorm d.activityScore
    steps := jsNorm d.steps
    activeCalories := jsNorm d.activeCalories
    sleepDeepMin := jsNorm d.sleepDeepMin
    sleepRemMin := jsNorm d.sleepRemMin
    weatherHighF := jsNorm d.weatherHighF
    weatherCondition := jsNorm d.weatherCondition
    mood := jsNorm d.mood
    energy := jsNorm d.energy }

/-- The arithmetic mean of a list of rationals, zero for the empty list. -/
def meanOrZero (vs : List ℚ) : ℚ :=
  if vs.length > 0 then vs.sum / vs.length else 0

/-- The values of a numeric field over the days where it is truthy
(present and nonzero) — the population that `YearStats` actually averages. -/
def truthyVals (f : DayData → JsVal ℚ) (l : List DayData) : List ℚ :=
  l.filterMap (fun d =>
    match f d with
    | .val x => if x ≠ 0 then some x else none
    | _ => none)

/-- The values of a numeric field over the days where it is present
(non-null, including zero): the population named by the claim's words
"exactly those days whose sleep value is present". -/
def presentVals (f : DayData → JsVal ℚ) (l : List DayData) : List ℚ :=
  l.filterMap (fun d => jsToOption (f d))

/-- The average over present days, per the claim's words (for comparison
with the code's rollup). -/
def avgOverPresent (f : DayData → JsVal ℚ) (l : List DayData) : ℚ :=
  meanOrZero (presentVals f l)

/-- Counterexample day for C5: sleep reported as 0 hours. -/
def dayZeroSleep : DayData := { emptyDay with sleep := .val 0 }

/-- Counterexample day for C5: sleep reported as 8 hours. -/
def dayEightSleep : DayData := { emptyDay with sleep := .val 8 }

/-- Counterexample day for C10: readiness score 0 next to a present sleep
score, so the Oura section is visible. -/
def dayZeroReadiness : DayData :=
  { emptyDay with readinessScore := .val 0, sleepScore := .val 80 }

/-- The same day with the readiness score absent instead of 0. -/
def dayNullReadiness : DayData :=
  { emptyDay with readinessScore := .null, sleepScore := .val 80 }

/-- Counterexample day for C10: a weather high of 0 °F, inside the field's
valid range, whose `&&` guard leaks a "0" text node. -/
def dayZeroWeather : DayData := { emptyDay with weatherHighF := .val 0 }

/-- The `Trip` record of `types.ts`. `returnDate` is declared `string` but
the rendered data may omit it or carry the empty string, so it is embedded
as nullable; the components read it only through truthiness. -/
structure Trip where
  tripId : String
  departureDate : String
  returnDate : JsVal String
  destinationCity : String
  destinationCountry : String
  purpose : String
  durationDays : ℚ
  totalMiles : ℚ
  flightCount : ℚ
deriving DecidableEq

/-- The `Flight` record of `types.ts`. -/
structure Flight where
  flightDate : String
  tripId : String
  origin : String
  destination : String
  airline : String
  flightNumber : String
  miles : ℚ
deriving DecidableEq

/-- The `isOngoing` binding of `TripTimeline` (`TravelSection.tsx` line 27):
`!trip.returnDate`. -/
def tripIsOngoing (t : Trip) : Bool := ! truthyS t.returnDate

/-- The end-date slot rendered by `TripTimeline` (`TravelSection.tsx`
line 47): `some` of the return date when `trip.returnDate` is truthy,
otherwise `none`, which the component renders as the marker `"ongoing"`
with no end date. -/
def tripEndDateSlot (t : Trip) : Option String :=
  if truthyS t.returnDate then jsToOption t.returnDate else none

/-- Concrete closed trip used to witness the C6 theorem. -/
def tripNRT : Trip where
  tripId := "t1"
  departureDate := "2024-03-01"
  returnDate := .val "2024-03-10"
  destinationCity := "Tokyo"
  destinationCountry := "Japan"
  purpose := "vacation"
  durationDays := 10
  totalMiles := 10300
  flightCount := 2

/-- The flight log ordering of `FlightLog` (`TravelSection.tsx` line 80):
`[...flights].sort((a, b) => a.flightDate.localeCompare(b.flightDate))`.
JavaScript `Array.prototype.sort` is a stable sort and the spread copies the
array first; `localeCompare` on ISO `YYYY-MM-DD` strings agrees with
lexicographic string order, which is how the comparator is embedded. -/
def flightLogSorted (flights : List Flight) : List Flight :=
  flights.mergeSort (fun a b => decide (a.flightDate ≤ b.flightDate))

/-- Two same-day flights used to witness the C7 theorem. -/
def flightSfoNrt : Flight where
  flightDate := "2024-03-01"
  tripId := "t1"
  origin := "SFO"
  destination := "NRT"
  airline := "UA"
  flightNumber := "UA837"
  miles := 5130

/-- Second same-day flight (a connection) for the C7 witness. -/
def flightNrtItm : Flight where
  flightDate := "2024-03-01"
  tripId := "t1"
  origin := "NRT"
  destination := "ITM"
  airline := "NH"
  flightNumber := "NH25"
  miles := 280

/-- The `travel` member of the snapshot (`types.ts`). -/
structure TravelData where
  trips : List Trip
  flights : List Flight
deriving DecidableEq

/-- The `TrackerData` snapshot of `types.ts`: the `days` record (as an
association list), the optional `travel` member, and the `generated`
rebuild timestamp. -/
structure TrackerData where
  days : List (String × DayData)
  travel : Option TravelData
  generated : String
deriving DecidableEq

/-- The empty snapshot `{ days: {}, generated: "" }` returned by the catch
branch of `fetchTrackerData` (`data.ts` line 15). -/
def emptyTrackerData : TrackerData where
  days := []
  travel := none
  generated := ""

/-- `fetchTrackerData` of `data.ts` (lines 3–17) with the module-level
mutable `cached` variable made explicit state: the call takes the current
cache and the outcome of `fetch` + `response.json()`, and returns the
promised value together with the cache left behind for the next call. -/
def fetchTrackerData (cached : Option TrackerData)
    (fetchResult : Except String TrackerData) : TrackerData × Option TrackerData :=
  match cached with
  | some c => (c, some c)
  | none =>
    match fetchResult with
    | .ok d => (d, some d)
    | .error _ => (emptyTrackerData, none)

/-- Stale snapshot cached before a rebuild, for the C8 counterexample. -/
def staleSnapshot : TrackerData where
  days := []
  travel := none
  generated := "2025-01-01T00:00:00Z"

/-- Fresh snapshot produced by a later rebuild, for the C8 counterexample. -/
def freshSnapshot : TrackerData where
  days := [("2025-02-01", emptyDay)]
  travel := none
  generated := "2025-02-01T00:00:00Z"

/-- Modelled from the spec: the pipeline's `RawObservation` (spec §3) —
`{ date, source, field, value, observedAt }`. The Python merge pipeline is
not part of the dashboard sources, so the record is taken from the spec's
data model. -/
structure RawObservation where
  date : String
  source : String
  field : String
  value : String
  observedAt : ℕ
deriving DecidableEq

/-- Modelled from the spec: the static per-field source-priority table of
§4.2, as a function from canonical field and source to a rank; a larger
rank means higher priority. -/
abbrev SourcePriority := String → String → ℕ

/-- Modelled from the spec: the conflict-resolution key of §4.2, compared
lexicographically — source priority first (larger wins), then `observedAt`
(later wins), then source name (lexically earlier wins, via the order
dual), and finally the value itself: the spec requires the ordering to be
"deterministic and total", and after the three stated rules only the value
can distinguish two observations of the same date and field, so it is used
as the last tie-break to make the order total. -/
abbrev ObsKey := ℕ ×ₗ (ℕ ×ₗ ((OrderDual String) ×ₗ String))

/-- Modelled from the spec: the key of one observation under a priority table. -/
def obsKey (prio : SourcePriority) (o : RawObservation) : ObsKey :=
  toLex (prio o.field o.source, toLex (o.observedAt, toLex (OrderDual.toDual o.source, o.value)))

/-- The value component of an observation key. -/
def keyValue (k : ObsKey) : String := (ofLex (ofLex (ofLex k).2).2).2

/-- The largest key of a list, `⊥` for the empty list. -/
def bestKey (ks : List ObsKey) : WithBot ObsKey :=
  ks.foldl (fun acc k => max acc ((k : ObsKey) : WithBot ObsKey)) ⊥

/-- Modelled from the spec: the merged value for one (date, field) slot —
the value of the winning observation among those for that date and field,
`none` when no source reported the field (spec §4.2). -/
def mergeValueAt (prio : SourcePriority) (obs : List RawObservation)
    (d f : String) : Option String :=
  match bestKey ((obs.filter (fun o => o.date == d && o.field == f)).map (obsKey prio)) with
  | none => none
  | some k => some (keyValue k)

/-- Modelled from the spec: `merge` of §4.2 — a sparse map from calendar
date to a Day (itself a map from canonical field to an optional value); a
date with no observation at all produces no Day entry. -/
def merge (prio : SourcePriority) (obs : List RawObservation) :
    String → Option (String → Option String) :=
  fun d =>
    if obs.any (fun o => o.date == d) then some (fun f => mergeValueAt prio obs d f)
    else none

/-- Example priority table (spec §8): oura outranks every other source. -/
def prioOuraFirst : SourcePriority := fun _ s => if s = "oura" then 2 else 1

/-- The spec §8 example observation from the oura source. -/
def obsOuraSleep : RawObservation where
  date := "2024-05-01"
  source := "oura"
  field := "sleepHours"
  value := "7.5"
  observedAt := 900

/-- The spec §8 example observation from the manual source, observed later. -/
def obsManualSleep : RawObservation where
  date := "2024-05-01"
  source := "manual"
  field := "sleepHours"
  value := "8"
  observedAt := 1000

/-- C1: the habit score is the number of true habit flags among
{workout, sauna, meditation} divided by 3; null/absent flags count as false;
a date with no Day record scores 0; the spec's example day scores 2/3. -/
theorem habit_score_is_true_flag_count_div_three :
    getDayScore none = 0
    ∧ (∀ d : DayData, getDayScore (some d) = (habitTrueCount d : ℚ) / 3)
    ∧ getDayScore (some exampleDayC1) = 2 / 3 := by
  refine ⟨rfl, fun d => ?_, ?_⟩
  · cases hw : truthyS d.habits.workout <;>
      cases hs : truthyB d.habits.sauna <;>
        cases hm : truthyB d.habits.meditation <;>
          simp [getDayScore, habitTrueCount, hw, hs, hm] <;> norm_num
  · show (((if truthyS exampleDayC1.habits.workout then 1 else 0)
      + (if truthyB exampleDayC1.habits.sauna then 1 else 0)
      + (if truthyB exampleDayC1.habits.meditation then 1 else 0) : ℚ)) / 3 = 2 / 3
    norm_num [exampleDayC1, emptyDay, truthyS, truthyB]

/-- C3: aggregating an empty day list yields all-zero rollups (and, the
averages being zero, the Avg HR / Avg Readiness cells render the dash). -/
theorem aggregate_empty_yields_zero_rollups :
    yearStats [] =
      { workouts := 0, saunas := 0, meditations := 0, avgSleep := 0,
        avgHR := 0, avgReadiness := 0, totalDays := 0,
        avgHRCell := none, avgReadinessCell := none } := by
  simp [yearStats]

/-- Truthiness of a number is unchanged by replacing `undefined` with `null`. -/
@[simp]
theorem truthyQ_jsNorm (x : JsVal ℚ) : truthyQ (jsNorm x) = truthyQ x := by
  cases x <;> rfl

/-- Truthiness of a string is unchanged by replacing `undefined` with `null`. -/
@[simp]
theorem truthyS_jsNorm (x : JsVal String) : truthyS (jsNorm x) = truthyS x := by
  cases x <;> rfl

/-- Truthiness of a boolean is unchanged by replacing `undefined` with `null`. -/
@[simp]
theorem truthyB_jsNorm (x : JsVal Bool) : truthyB (jsNorm x) = truthyB x := by
  cases x <;> rfl

/-- The `??` view of a value is unchanged by replacing `undefined` with `null`. -/
@[simp]
theorem jsToOption_jsNorm {α : Type} (x : JsVal α) : jsToOption (jsNorm x) = jsToOption x := by
  cases x <;> rfl

/-- The `x || d` idiom on numbers is unchanged by replacing `undefined` with `null`. -/
@[simp]
theorem jsOrQ_jsNorm (x : JsVal ℚ) (d : ℚ) : jsOrQ (jsNorm x) d = jsOrQ x d := by
  cases x <;> rfl

/-- The `x || d` idiom on strings is unchanged by replacing `undefined` with `null`. -/
@[simp]
theorem jsOrS_jsNorm (x : JsVal String) (d : String) : jsOrS (jsNorm x) d = jsOrS x d := by
  cases x <;> rfl

/-- A numeric JSX gate is unchanged by replacing `undefined` with `null`:
both guards render nothing. -/
@[simp]
theorem numGate_jsNorm {α : Type} (g : JsVal ℚ) (c : ℚ → α) :
    numGate (jsNorm g) c = numGate g c := by
  cases g <;> rfl

/-- React's falsy-guard rendering is unchanged by replacing `undefined`
with `null`: both render nothing. -/
@[simp]
theorem falsyGuardRender_jsNorm {α : Type} (g : JsVal ℚ) :
    (falsyGuardRender (jsNorm g) : Gated α) = falsyGuardRender g := by
  cases g <;> rfl

/-- Filtering a normalized day list is normalizing the filtered list, for any
predicate that cannot tell `undefined` from `null`. -/
theorem filter_map_undefToNull (p : DayData → Bool)
    (hp : ∀ d, p (undefToNull d) = p d) (l : List DayData) :
    (l.map undefToNull).filter p = (l.filter p).map undefToNull := by
  induction l with
  | nil => rfl
  | cons a t ih =>
    simp only [List.map_cons, List.filter_cons, hp a]
    cases hpa : p a <;> simp [ih]

/-- Summation over a normalized day list agrees with summation over the
original, for any summand that cannot tell `undefined` from `null`. -/
theorem foldl_add_undefToNull (g : DayData → ℚ)
    (hg : ∀ d, g (undefToNull d) = g d) (l : List DayData) (init : ℚ) :
    (l.map undefToNull).foldl (fun s d => s + g d) init
      = l.foldl (fun s d => s + g d) init := by
  induction l generalizing init with
  | nil => rfl
  | cons a t ih =>
    simp only [List.map_cons, List.foldl_cons, hg a]
    exact ih _

/-- C4: replacing every omitted optional field of a day by an explicit
`null` changes neither the `DayDetail` rendering of that day nor the year
statistics of any day list. -/
theorem consumers_treat_null_and_absent_identically :
    (∀ d : DayData, renderDayDetail (undefToNull d) = renderDayDetail d)
    ∧ (∀ daysList : List DayData,
        yearStats (daysList.map undefToNull) = yearStats daysList) := by
  constructor
  · intro d
    simp [renderDayDetail, undefToNull]
  · intro l
    have hw : ∀ d : DayData,
        truthyS (undefToNull d).habits.workout = truthyS d.habits.workout := by
      intro d; simp [undefToNull]
    have hs : ∀ d : DayData,
        truthyB (undefToNull d).habits.sauna = truthyB d.habits.sauna := by
      intro d; simp [undefToNull]
    have hm : ∀ d : DayData,
        truthyB (undefToNull d).habits.meditation = truthyB d.habits.meditation := by
      intro d; simp [undefToNull]
    have hsl : ∀ d : DayData, truthyQ (undefToNull d).sleep = truthyQ d.sleep := by
      intro d; simp [undefToNull]
    have hslv : ∀ d : DayData, jsOrQ (undefToNull d).sleep 0 = jsOrQ d.sleep 0 := by
      intro d; simp [undefToNull]
    have hhr : ∀ d : DayData, truthyQ (undefToNull d).restingHR = truthyQ d.restingHR := by
      intro d; simp [undefToNull]
    have hhrv : ∀ d : DayData, jsOrQ (undefToNull d).restingHR 0 = jsOrQ d.restingHR 0 := by
      intro d; simp [undefToNull]
    have hrd : ∀ d : DayData,
        truthyQ (undefToNull d).readinessScore = truthyQ d.readinessScore := by
      intro d; simp [undefToNull]
    have hrdv : ∀ d : DayData,
        jsOrQ (undefToNull d).readinessScore 0 = jsOrQ d.readinessScore 0 := by
      intro d; simp [undefToNull]
    simp only [yearStats]
    rw [filter_map_undefToNull _ hw, filter_map_undefToNull _ hs,
      filter_map_undefToNull _ hm, filter_map_undefToNull _ hsl,
      filter_map_undefToNull _ hhr, filter_map_undefToNull _ hrd]
    rw [foldl_add_undefToNull _ hslv, foldl_add_undefToNull _ hhrv,
      foldl_add_undefToNull _ hrdv]
    simp [List.length_map]

/-- A left fold adding a per-day summand equals the initial value plus the
sum of the mapped list. -/
theorem foldl_add_eq_sum (g : DayData → ℚ) (l : List DayData) (init : ℚ) :
    l.foldl (fun s d => s + g d) init = init + (l.map g).sum := by
  induction l generalizing init with
  | nil => simp
  | cons a t ih => simp [List.foldl_cons, ih, add_assoc]

/-- The truthy values of a field are exactly the `x || 0` reads of the days
surviving the truthiness filter — the two shapes `YearStats` combines. -/
theorem truthyVals_eq_filter_map (f : DayData → JsVal ℚ) (l : List DayData) :
    truthyVals f l = (l.filter (fun d => truthyQ (f d))).map (fun d => jsOrQ (f d) 0) := by
  induction l with
  | nil => rfl
  | cons a t ih =>
    simp only [truthyVals] at ih ⊢
    rw [List.filterMap_cons, List.filter_cons]
    cases hfa : f a with
    | undef => simpa [truthyQ] using ih
    | null => simpa [truthyQ] using ih
    | val x =>
      by_cases hx : x = 0
      · subst hx
        simpa [truthyQ] using ih
      · simpa [truthyQ, jsOrQ, hfa, hx] using ih

/-- C5 (amended): each average rollup is the arithmetic mean over exactly
the days whose value is truthy — present AND nonzero; present-but-zero
values are excluded from numerator and denominator alike. -/
theorem avg_rollups_are_means_over_truthy_days (l : List DayData) :
    (yearStats l).avgSleep = meanOrZero (truthyVals (fun d => d.sleep) l)
    ∧ (yearStats l).avgHR = meanOrZero (truthyVals (fun d => d.restingHR) l)
    ∧ (yearStats l).avgReadiness = meanOrZero (truthyVals (fun d => d.readinessScore) l) := by
  refine ⟨?_, ?_, ?_⟩ <;>
    simp only [yearStats, meanOrZero, truthyVals_eq_filter_map, List.length_map,
      foldl_add_eq_sum, zero_add]

/-- C5 (counterexample): on a map holding one day with sleep 0 and one with
sleep 8, the code's rollup averages only the nonzero day (8), while the
mean over the days whose sleep value is present is (0 + 8) / 2 = 4. -/
theorem avg_sleep_present_mean_counterexample :
    (yearStats [dayZeroSleep, dayEightSleep]).avgSleep = 8
    ∧ avgOverPresent (fun d => d.sleep) [dayZeroSleep, dayEightSleep] = 4
    ∧ (yearStats [dayZeroSleep, dayEightSleep]).avgSleep
        ≠ avgOverPresent (fun d => d.sleep) [dayZeroSleep, dayEightSleep] := by
  have h1 : (yearStats [dayZeroSleep, dayEightSleep]).avgSleep = 8 := by
    simp [yearStats, dayZeroSleep, dayEightSleep, emptyDay, truthyQ, jsOrQ,
      List.filter_cons, List.foldl_cons]
  have h2 : avgOverPresent (fun d => d.sleep) [dayZeroSleep, dayEightSleep] = 4 := by
    simp [avgOverPresent, presentVals, meanOrZero, dayZeroSleep, dayEightSleep,
      emptyDay, jsToOption, List.filterMap_cons]
    norm_num
  refine ⟨h1, h2, ?_⟩
  rw [h1, h2]
  norm_num

/-- C6: the trip timeline renders the "ongoing" marker (no end date) exactly
when `returnDate` is absent, null or the empty string; a nonempty
`returnDate` is rendered as the trip's end date, and the `isOngoing` flag
agrees with the rendering. -/
theorem trip_ongoing_iff_return_date_absent_or_empty (t : Trip) :
    (tripEndDateSlot t = none
      ↔ t.returnDate = JsVal.undef ∨ t.returnDate = JsVal.null ∨ t.returnDate = JsVal.val "")
    ∧ (tripIsOngoing t = true ↔ tripEndDateSlot t = none)
    ∧ (∀ s : String, t.returnDate = JsVal.val s → s ≠ "" → tripEndDateSlot t = some s) := by
  cases hr : t.returnDate with
  | undef => simp [tripEndDateSlot, tripIsOngoing, truthyS, hr]
  | null => simp [tripEndDateSlot, tripIsOngoing, truthyS, hr]
  | val s =>
    by_cases hs : s = ""
    · subst hs
      simp [tripEndDateSlot, tripIsOngoing, truthyS, hr]
    · simp [tripEndDateSlot, tripIsOngoing, truthyS, hr, hs, jsToOption]

/-- Witness for C6 at a concrete closed trip: its nonempty return date is
rendered as the end date. -/
theorem trip_ongoing_witness : tripEndDateSlot tripNRT = some "2024-03-10" :=
  (trip_ongoing_iff_return_date_absent_or_empty tripNRT).2.2 "2024-03-10" rfl (by decide)

/-- C7: the flight log is a permutation of the input flights, is ordered by
nondecreasing flight date, and is stable — two flights in their original
order on the same date stay in that order. -/
theorem flight_log_sorted_stable_permutation (flights : List Flight) :
    (flightLogSorted flights).Perm flights
    ∧ List.Pairwise (fun a b : Flight => a.flightDate ≤ b.flightDate) (flightLogSorted flights)
    ∧ (∀ a b : Flight, a.flightDate = b.flightDate →
        [a, b].Sublist flights → [a, b].Sublist (flightLogSorted flights)) := by
  have htrans : ∀ a b c : Flight, decide (a.flightDate ≤ b.flightDate) = true →
      decide (b.flightDate ≤ c.flightDate) = true →
      decide (a.flightDate ≤ c.flightDate) = true := by
    intro a b c hab hbc
    simp only [decide_eq_true_eq] at hab hbc ⊢
    exact le_trans hab hbc
  have htotal : ∀ a b : Flight,
      (decide (a.flightDate ≤ b.flightDate) || decide (b.flightDate ≤ a.flightDate)) = true := by
    intro a b
    rcases le_total a.flightDate b.flightDate with h | h <;> simp [h]
  refine ⟨List.mergeSort_perm flights _, ?_, ?_⟩
  · have hp := List.sorted_mergeSort htrans htotal flights
    exact hp.imp (fun h => by simpa using h)
  · intro a b hab hsub
    have hle : decide (a.flightDate ≤ b.flightDate) = true := by simp [hab]
    exact List.pair_sublist_mergeSort htrans htotal hle hsub

/-- Witness for C7: two flights sharing a date keep their order in the
sorted log. -/
theorem flight_log_stability_witness :
    [flightSfoNrt, flightNrtItm].Sublist (flightLogSorted [flightSfoNrt, flightNrtItm]) :=
  (flight_log_sorted_stable_permutation [flightSfoNrt, flightNrtItm]).2.2
    flightSfoNrt flightNrtItm rfl (List.Sublist.refl _)

/-- C8 (counterexample): with a snapshot already cached, a call performed
after a rebuild that produced a snapshot with a different (newer)
`generated` timestamp still returns the stale cached snapshot. -/
theorem stale_cache_served_after_rebuild :
    (fetchTrackerData (some staleSnapshot) (Except.ok freshSnapshot)).1 = staleSnapshot
    ∧ staleSnapshot.generated ≠ freshSnapshot.generated :=
  ⟨rfl, by decide⟩

/-- C8 (amended): the cache is implicit module-level state with no
invalidation trigger — once a snapshot is cached, every later call returns
it unchanged whatever the current fetch would produce. -/
theorem cached_snapshot_always_returned (c : TrackerData)
    (res : Except String TrackerData) :
    fetchTrackerData (some c) res = (c, some c) :=
  rfl

/-- C9: when the fetch (or JSON parse) fails, the call returns the empty
snapshot and leaves the cache unset, so a later call consults the fetch
again (and caches a successful result). -/
theorem fetch_failure_returns_empty_and_caches_nothing :
    (∀ e : String, fetchTrackerData none (Except.error e) = (emptyTrackerData, none))
    ∧ (∀ d : TrackerData, fetchTrackerData none (Except.ok d) = (d, some d)) :=
  ⟨fun _ => rfl, fun _ => rfl⟩

/-- Replacing one day of a list by another on which the filter predicate
agrees leaves the filtered length unchanged. -/
theorem filter_length_middle_congr (p : DayData → Bool) {x y : DayData}
    (hxy : p x = p y) (pre post : List DayData) :
    ((pre ++ x :: post).filter p).length = ((pre ++ y :: post).filter p).length := by
  rw [List.filter_append, List.filter_append, List.filter_cons, List.filter_cons, hxy]
  cases hpy : p y <;> simp

/-- Replacing one day of a list by another on which the filter predicate
and the summand agree leaves the filtered sum unchanged. -/
theorem filter_foldl_middle_congr (p : DayData → Bool) (g : DayData → ℚ) {x y : DayData}
    (hp : p x = p y) (hg : g x = g y) (pre post : List DayData) (init : ℚ) :
    ((pre ++ x :: post).filter p).foldl (fun s d => s + g d) init
      = ((pre ++ y :: post).filter p).foldl (fun s d => s + g d) init := by
  rw [List.filter_append, List.filter_append, List.filter_cons, List.filter_cons, hp]
  cases hpy : p y
  · simp
  · simp only [if_true, List.foldl_append, List.foldl_cons]
    rw [hg]

/-- The year statistics depend on each day only through the nine atoms the
component reads: habit truthiness and the sleep / resting HR / readiness
truthiness and `|| 0` reads. -/
theorem yearStats_middle_congr {x y : DayData}
    (hw : truthyS x.habits.workout = truthyS y.habits.workout)
    (hs : truthyB x.habits.sauna = truthyB y.habits.sauna)
    (hm : truthyB x.habits.meditation = truthyB y.habits.meditation)
    (hsl : truthyQ x.sleep = truthyQ y.sleep)
    (hslv : jsOrQ x.sleep 0 = jsOrQ y.sleep 0)
    (hhr : truthyQ x.restingHR = truthyQ y.restingHR)
    (hhrv : jsOrQ x.restingHR 0 = jsOrQ y.restingHR 0)
    (hrd : truthyQ x.readinessScore = truthyQ y.readinessScore)
    (hrdv : jsOrQ x.readinessScore 0 = jsOrQ y.readinessScore 0)
    (pre post : List DayData) :
    yearStats (pre ++ x :: post) = yearStats (pre ++ y :: post) := by
  have h1 := filter_length_middle_congr (fun d => truthyS d.habits.workout) hw pre post
  have h2 := filter_length_middle_congr (fun d => truthyB d.habits.sauna) hs pre post
  have h3 := filter_length_middle_congr (fun d => truthyB d.habits.meditation) hm pre post
  have h4l := filter_length_middle_congr (fun d => truthyQ d.sleep) hsl pre post
  have h4s := filter_foldl_middle_congr (fun d => truthyQ d.sleep)
    (fun d => jsOrQ d.sleep 0) hsl hslv pre post 0
  have h5l := filter_length_middle_congr (fun d => truthyQ d.restingHR) hhr pre post
  have h5s := filter_foldl_middle_congr (fun d => truthyQ d.restingHR)
    (fun d => jsOrQ d.restingHR 0) hhr hhrv pre post 0
  have h6l := filter_length_middle_congr (fun d => truthyQ d.readinessScore) hrd pre post
  have h6s := filter_foldl_middle_congr (fun d => truthyQ d.readinessScore)
    (fun d => jsOrQ d.readinessScore 0) hrd hrdv pre post 0
  simp only [yearStats]
  rw [h1, h2, h3, h4l, h5l, h6l]
  simp only [h4s, h5s, h6s, List.length_append, List.length_cons]

/-- C10 (amended): for the dash-rendered truthiness reads — sleep, resting
HR, steps, work time, mood and energy in the day detail, and the sleep /
resting HR / readiness aggregates — a reported value of 0 is treated
exactly like an absent value; a weather high of 0, however, hides the
weather details but leaks a "0" text node where an absent value renders
nothing. -/
theorem zero_gated_fields_treated_as_absent (d : DayData) (pre post : List DayData) :
    renderDayDetail { d with sleep := JsVal.val 0 } = renderDayDetail { d with sleep := JsVal.null }
    ∧ renderDayDetail { d with restingHR := JsVal.val 0 }
        = renderDayDetail { d with restingHR := JsVal.null }
    ∧ renderDayDetail { d with steps := JsVal.val 0 }
        = renderDayDetail { d with steps := JsVal.null }
    ∧ renderDayDetail { d with timeWorking := JsVal.val 0 }
        = renderDayDetail { d with timeWorking := JsVal.null }
    ∧ renderDayDetail { d with mood := JsVal.val 0 }
        = renderDayDetail { d with mood := JsVal.null }
    ∧ renderDayDetail { d with energy := JsVal.val 0 }
        = renderDayDetail { d with energy := JsVal.null }
    ∧ (renderDayDetail { d with weatherHighF := JsVal.val 0 }).weatherSection = Gated.leakZero
    ∧ (renderDayDetail { d with weatherHighF := JsVal.null }).weatherSection = Gated.hidden
    ∧ yearStats (pre ++ { d with sleep := JsVal.val 0 } :: post)
        = yearStats (pre ++ { d with sleep := JsVal.null } :: post)
    ∧ yearStats (pre ++ { d with restingHR := JsVal.val 0 } :: post)
        = yearStats (pre ++ { d with restingHR := JsVal.null } :: post)
    ∧ yearStats (pre ++ { d with readinessScore := JsVal.val 0 } :: post)
        = yearStats (pre ++ { d with readinessScore := JsVal.null } :: post) := by
  refine ⟨?_, ?_, ?_, ?_, ?_, ?_, ?_, ?_, ?_, ?_, ?_⟩
  · simp [renderDayDetail, truthyQ]
  · simp [renderDayDetail, truthyQ]
  · simp [renderDayDetail, truthyQ]
  · simp [renderDayDetail, truthyQ]
  · simp [renderDayDetail, truthyQ]
  · simp [renderDayDetail, truthyQ]
  · simp [renderDayDetail, numGate]
  · simp [renderDayDetail, numGate]
  · apply yearStats_middle_congr <;> simp [truthyQ, jsOrQ]
  · apply yearStats_middle_congr <;> simp [truthyQ, jsOrQ]
  · apply yearStats_middle_congr <;> simp [truthyQ, jsOrQ]

/-- C10 (counterexample): a reported 0 is NOT always treated as absent by
the day detail. A readiness score of 0 renders as "0" through `??` when
another score keeps the Oura section visible, and a weather high of 0
leaks a "0" text node through its `&&` guard — in both cases unlike the
same day with the field absent. -/
theorem zero_values_rendered_unlike_absent :
    (renderDayDetail dayZeroReadiness).ouraSection = Gated.shown (some 80, some 0, none)
    ∧ (renderDayDetail dayNullReadiness).ouraSection = Gated.shown (some 80, none, none)
    ∧ renderDayDetail dayZeroReadiness ≠ renderDayDetail dayNullReadiness
    ∧ (renderDayDetail dayZeroWeather).weatherSection = Gated.leakZero
    ∧ (renderDayDetail emptyDay).weatherSection = Gated.hidden
    ∧ renderDayDetail dayZeroWeather ≠ renderDayDetail emptyDay := by
  have h0 : (renderDayDetail dayZeroReadiness).ouraSection = Gated.shown (some 80, some 0, none) := by
    norm_num [renderDayDetail, dayZeroReadiness, emptyDay, truthyQ, jsToOption]
  have h1 : (renderDayDetail dayNullReadiness).ouraSection = Gated.shown (some 80, none, none) := by
    norm_num [renderDayDetail, dayNullReadiness, emptyDay, truthyQ, jsToOption]
  have h2 : (renderDayDetail dayZeroWeather).weatherSection = Gated.leakZero := by
    norm_num [renderDayDetail, numGate, dayZeroWeather, emptyDay]
  have h3 : (renderDayDetail emptyDay).weatherSection = Gated.hidden := by
    norm_num [renderDayDetail, numGate, emptyDay]
  refine ⟨h0, h1, fun h => ?_, h2, h3, fun h => ?_⟩
  · rw [congrArg DayDetailView.ouraSection h, h1] at h0
    simp at h0
  · rw [congrArg DayDetailView.weatherSection h, h3] at h2
    simp at h2

/-- A Boolean `any` is invariant under permutation of the list. -/
theorem perm_any {α : Type} (p : α → Bool) {l₁ l₂ : List α} (h : l₁.Perm l₂) :
    l₁.any p = l₂.any p := by
  cases hb : l₂.any p
  · simp only [List.any_eq_false] at hb ⊢
    intro a ha
    exact hb a (h.mem_iff.mp ha)
  · simp only [List.any_eq_true] at hb ⊢
    obtain ⟨a, ha, hp⟩ := hb
    exact ⟨a, h.mem_iff.mpr ha, hp⟩

/-- The largest key of a list is invariant under permutation: the fold takes
a running `max` over a linear order, which is right-commutative. -/
theorem bestKey_perm {ks₁ ks₂ : List ObsKey} (h : ks₁.Perm ks₂) :
    bestKey ks₁ = bestKey ks₂ := by
  haveI : RightCommutative
      (fun (acc : WithBot ObsKey) (k : ObsKey) => max acc ((k : ObsKey) : WithBot ObsKey)) :=
    ⟨fun b a₁ a₂ => by
      rw [max_assoc, max_comm ((a₁ : ObsKey) : WithBot ObsKey), ← max_assoc]⟩
  exact h.foldl_eq ⊥

/-- C2: merging a permutation of the observation list yields exactly the
same Day map — the per-field winner is a maximum under a total order
(priority, then observedAt, then source name, then value), so ingestion
order cannot change any merged value, and the set of dates holding a Day is
order-independent too. -/
theorem merge_is_order_independent (prio : SourcePriority)
    (l₁ l₂ : List RawObservation) (h : l₁.Perm l₂) :
    merge prio l₁ = merge prio l₂ := by
  funext dd
  unfold merge
  rw [perm_any (fun o => o.date == dd) h]
  cases hany : l₂.any (fun o => o.date == dd)
  · simp
  · simp only [if_true]
    congr 1
    funext f
    unfold mergeValueAt
    rw [bestKey_perm ((h.filter (fun o => o.date == dd && o.field == f)).map (obsKey prio))]

/-- Witness for C2: the spec §8 example pair of observations, ingested in
both orders, merges identically. -/
theorem merge_is_order_independent_witness :
    ([obsOuraSleep, obsManualSleep]).Perm [obsManualSleep, obsOuraSleep]
    ∧ merge prioOuraFirst [obsOuraSleep, obsManualSleep]
        = merge prioOuraFirst [obsManualSleep, obsOuraSleep] := by
  have hperm : ([obsOuraSleep, obsManualSleep]).Perm [obsManualSleep, obsOuraSleep] :=
    List.Perm.swap obsManualSleep obsOuraSleep []
  exact ⟨hperm, merge_is_order_independent prioOuraFirst _ _ hperm⟩
